import Mathlib

/-!
Shallow embedding of the rent-share agreement program
(src/state.rs, src/error.rs, src/instruction.rs, src/processor.rs).

Machine integers (u64, u8) are modelled as Nat; the only place the source
performs arithmetic that can overflow or underflow is the unguarded
`remaining_payments -= 1` in `pay_rent`, which is modelled with an explicit
wrap modulo 2 ^ 64.  Public keys are modelled as byte lists compared for
equality, exactly how the source uses them.  The borsh-(de)serialized
agreement record stored in the account's data buffer is modelled as
`Option RentShareAccount`: `none` is a buffer that `try_from_slice` rejects,
`some r` a decodable buffer holding record `r`.  Each processor entry point
is embedded as a pure function that returns the error produced (if any)
together with the resulting persisted record and lamport balances; an early
`return Err(..)` in the source leaves the buffer untouched, so the embedding
returns the input record and balances on those paths.
-/

namespace RentShare

/-- 32-byte public key, modelled as its byte list. -/
abbrev Pubkey := List Nat

/-- 2 ^ 64, the wrap-around modulus of the u64 `remaining_payments` field. -/
def u64_mod : Nat := 2 ^ 64

/-- Errors of `solana_program::program_error::ProgramError` that the source
can produce, plus `TransferFailed` standing for the propagated failure of the
external system-program transfer (`invoke(..)?`). `Custom c` carries a
domain-level error code (src/error.rs). -/
inductive ProgramError where
  | IncorrectProgramId
  | AccountNotRentExempt
  | InvalidAccountData
  | AccountAlreadyInitialized
  | UninitializedAccount
  | MissingRequiredSignature
  | InsufficientFunds
  | InvalidInstructionData
  | TransferFailed
  | Custom (code : Nat)
deriving DecidableEq, Repr

/-- src/error.rs: `RentShareError`, discriminants starting at 100. -/
inductive RentShareError where
  | RentAlreadyPaidInFull
  | RentPaymentAmountMismatch
  | RentAgreementTerminated
deriving DecidableEq, Repr

/-- The explicit numeric discriminant of each `RentShareError` variant
(`RentAlreadyPaidInFull = 100`, the others following in order). -/
def RentShareError.toCode : RentShareError → Nat
  | .RentAlreadyPaidInFull => 100
  | .RentPaymentAmountMismatch => 101
  | .RentAgreementTerminated => 102

/-- src/error.rs: `impl From<RentShareError> for ProgramError`
(`ProgramError::Custom(e as u32)`). -/
def RentShareError.into (e : RentShareError) : ProgramError :=
  ProgramError.Custom e.toCode

/-- src/state.rs: `AgreementStatus` with discriminants 0,1,2,3. -/
inductive AgreementStatus where
  | Uninitialized
  | Active
  | Completed
  | Terminated
deriving DecidableEq, Repr

/-- The `as u8` value of an `AgreementStatus` variant. -/
def AgreementStatus.toU8 : AgreementStatus → Nat
  | .Uninitialized => 0
  | .Active => 1
  | .Completed => 2
  | .Terminated => 3

/-- src/state.rs: `RentShareAccount`, the persisted agreement record.
`status` is the raw u8; the other integer fields are u64 / u8 values. -/
structure RentShareAccount where
  status : Nat
  payee_pubkey : Pubkey
  payer_pubkey : Pubkey
  deposit : Nat
  rent_amount : Nat
  duration : Nat
  duration_unit : Nat
  remaining_payments : Nat
deriving DecidableEq, Repr

/-- src/state.rs: `is_initialized` — `status != AgreementStatus::Uninitialized as u8`. -/
def RentShareAccount.is_initialized (a : RentShareAccount) : Bool :=
  a.status != AgreementStatus.Uninitialized.toU8

/-- src/state.rs: `is_complete` — `status == AgreementStatus::Completed as u8`. -/
def RentShareAccount.is_complete (a : RentShareAccount) : Bool :=
  a.status == AgreementStatus.Completed.toU8

/-- src/state.rs: `is_terminated` — `status == AgreementStatus::Terminated as u8`. -/
def RentShareAccount.is_terminated (a : RentShareAccount) : Bool :=
  a.status == AgreementStatus.Terminated.toU8

/-- The slice of `solana_program::account_info::AccountInfo` the processor
reads: key, owner, lamport balance, signer flag, and (for the agreement
account) the decoded view of its fixed-size data buffer. -/
structure AccountInfo where
  key : Pubkey
  owner : Pubkey
  lamports : Nat
  is_signer : Bool
  data : Option RentShareAccount
deriving DecidableEq, Repr

/-- Outcome of `initialize_rent_contract`: the error (if any), the persisted
record after the call, and the agreement account's lamports (which this
operation never touches). -/
structure InitResult where
  err : Option ProgramError
  rent_agreement_data : Option RentShareAccount
  rent_agreement_lamports : Nat
deriving DecidableEq, Repr

/-- src/processor.rs `initialize_rent_contract`.  `rent_exempt` is the result
of the host's `Rent::is_exempt(lamports, data_len)` check; the check order and
every early `return Err(..)` mirror the source, each such return leaving the
persisted record as it was. -/
def initialize_rent_contract (rent_agreement_account : AccountInfo)
    (rent_exempt : Bool) (program_id : Pubkey)
    (payee_pubkey payer_pubkey : Pubkey)
    (deposit rent_amount duration duration_unit : Nat) : InitResult :=
  if rent_agreement_account.owner ≠ program_id then
    ⟨some ProgramError.IncorrectProgramId, rent_agreement_account.data,
      rent_agreement_account.lamports⟩
  else if rent_exempt = false then
    ⟨some ProgramError.AccountNotRentExempt, rent_agreement_account.data,
      rent_agreement_account.lamports⟩
  else
    match rent_agreement_account.data with
    | none =>
        ⟨some ProgramError.InvalidAccountData, none,
          rent_agreement_account.lamports⟩
    | some rent_data =>
        if rent_data.is_initialized then
          ⟨some ProgramError.AccountAlreadyInitialized, some rent_data,
            rent_agreement_account.lamports⟩
        else
          ⟨none,
            some { status := AgreementStatus.Active.toU8
                   payee_pubkey := payee_pubkey
                   payer_pubkey := payer_pubkey
                   deposit := deposit
                   rent_amount := rent_amount
                   duration := duration
                   duration_unit := duration_unit
                   remaining_payments := duration },
            rent_agreement_account.lamports⟩

/-- Outcome of `pay_rent`: the error (if any), the persisted record after the
call, and the payer/payee lamport balances after the call. -/
structure PayRentResult where
  err : Option ProgramError
  rent_agreement_data : Option RentShareAccount
  payer_lamports : Nat
  payee_lamports : Nat
deriving DecidableEq, Repr

/-- src/processor.rs `pay_rent`.  `transfer_ok` is whether the external
system-program transfer (`invoke`) succeeds; on transfer success the payer
loses and the payee gains `rent_amount` lamports.  The u64 decrement
`remaining_payments -= 1` is wrapping (release-build semantics), modelled as
addition of `u64_mod - 1` modulo `u64_mod`.  Check order and every early
`return` mirror the source. -/
def pay_rent (rent_agreement_account payee_account payer_account : AccountInfo)
    (program_id : Pubkey) (rent_amount : Nat) (transfer_ok : Bool) :
    PayRentResult :=
  if rent_agreement_account.owner ≠ program_id then
    ⟨some ProgramError.IncorrectProgramId, rent_agreement_account.data,
      payer_account.lamports, payee_account.lamports⟩
  else if payer_account.is_signer = false then
    ⟨some ProgramError.MissingRequiredSignature, rent_agreement_account.data,
      payer_account.lamports, payee_account.lamports⟩
  else if payer_account.lamports < rent_amount then
    ⟨some ProgramError.InsufficientFunds, rent_agreement_account.data,
      payer_account.lamports, payee_account.lamports⟩
  else if payer_account.key = payee_account.key then
    ⟨none, rent_agreement_account.data,
      payer_account.lamports, payee_account.lamports⟩
  else
    match rent_agreement_account.data with
    | none =>
        ⟨some ProgramError.InvalidAccountData, none,
          payer_account.lamports, payee_account.lamports⟩
    | some rent_data =>
        if rent_data.is_initialized = false then
          ⟨some ProgramError.UninitializedAccount, some rent_data,
            payer_account.lamports, payee_account.lamports⟩
        else if rent_data.payee_pubkey ≠ payee_account.key then
          ⟨some ProgramError.InvalidAccountData, some rent_data,
            payer_account.lamports, payee_account.lamports⟩
        else if rent_data.is_complete then
          ⟨some RentShareError.RentAlreadyPaidInFull.into, some rent_data,
            payer_account.lamports, payee_account.lamports⟩
        else if rent_data.is_terminated then
          ⟨some RentShareError.RentAgreementTerminated.into, some rent_data,
            payer_account.lamports, payee_account.lamports⟩
        else if rent_data.rent_amount ≠ rent_amount then
          ⟨some RentShareError.RentPaymentAmountMismatch.into, some rent_data,
            payer_account.lamports, payee_account.lamports⟩
        else if transfer_ok = false then
          ⟨some ProgramError.TransferFailed, some rent_data,
            payer_account.lamports, payee_account.lamports⟩
        else
          let remaining := (rent_data.remaining_payments + (u64_mod - 1)) % u64_mod
          let status :=
            if remaining = 0 then AgreementStatus.Completed.toU8
            else rent_data.status
          ⟨none,
            some { rent_data with
                   remaining_payments := remaining
                   status := status },
            payer_account.lamports - rent_amount,
            payee_account.lamports + rent_amount⟩

/-- Outcome of `terminate_early`: the error (if any) and the persisted record
after the call. -/
structure TerminateResult where
  err : Option ProgramError
  rent_agreement_data : Option RentShareAccount
deriving DecidableEq, Repr

/-- src/processor.rs `terminate_early`.  Note: the source reads only the
agreement account — no signer or authorization check of any kind. -/
def terminate_early (rent_agreement_account : AccountInfo)
    (program_id : Pubkey) : TerminateResult :=
  if rent_agreement_account.owner ≠ program_id then
    ⟨some ProgramError.IncorrectProgramId, rent_agreement_account.data⟩
  else
    match rent_agreement_account.data with
    | none => ⟨some ProgramError.InvalidAccountData, none⟩
    | some rent_data =>
        if rent_data.is_initialized = false then
          ⟨some ProgramError.UninitializedAccount, some rent_data⟩
        else if rent_data.is_complete then
          ⟨some RentShareError.RentAlreadyPaidInFull.into, some rent_data⟩
        else if rent_data.is_terminated then
          ⟨some RentShareError.RentAgreementTerminated.into, some rent_data⟩
        else
          ⟨none,
            some { rent_data with
                   remaining_payments := 0
                   status := AgreementStatus.Terminated.toU8 }⟩

/-- src/instruction.rs: the typed operations produced by `unpack`. -/
inductive RentShareInstruction where
  | InitializeRentContract (payee_pubkey payer_pubkey : Pubkey)
      (deposit rent_amount duration duration_unit : Nat)
  | PayRent (rent_amount : Nat)
  | TerminateEarly
deriving DecidableEq, Repr

/-- Outcome of instruction decoding. `panic` is a Rust panic (out-of-bounds
slice index), which aborts instead of returning a `ProgramError`. -/
inductive UnpackResult where
  | ok (i : RentShareInstruction)
  | err (e : ProgramError)
  | panic
deriving DecidableEq, Repr

/-- `u64::from_le_bytes` over a little-endian byte list. -/
def from_le_bytes : List Nat → Nat
  | [] => 0
  | b :: rest => b + 256 * from_le_bytes rest

/-- src/instruction.rs `unpack_u64`: `input.get(start..8 + start)` succeeds
exactly when `start + 8 ≤ input.len()` (then the 8-byte slice converts and is
read little-endian); otherwise the caller's `?` yields
`InvalidInstructionData`, modelled here as `none`. -/
def unpack_u64 (input : List Nat) (start : Nat) : Option Nat :=
  if start + 8 ≤ input.length then
    some (from_le_bytes ((input.drop start).take 8))
  else
    none

/-- src/instruction.rs `unpack`.  Mirrors the source's evaluation order for
tag 0: `&rest[..32]` and `&rest[32..64]` are Rust slice indexing, which
PANICS (rather than returning an error) when the payload is shorter than 32
resp. 64 bytes; the three u64 fields go through the fallible `unpack_u64`;
`rest[88]` again panics when the payload has no byte at index 88. -/
def unpack (input : List Nat) : UnpackResult :=
  match input with
  | [] => .err ProgramError.InvalidInstructionData
  | tag :: rest =>
    if tag = 0 then
      if rest.length < 32 then .panic
      else if rest.length < 64 then .panic
      else
        let payee_pubkey : Pubkey := rest.take 32
        let payer_pubkey : Pubkey := (rest.drop 32).take 32
        match unpack_u64 rest 64 with
        | none => .err ProgramError.InvalidInstructionData
        | some deposit =>
          match unpack_u64 rest 72 with
          | none => .err ProgramError.InvalidInstructionData
          | some rent_amount =>
            match unpack_u64 rest 80 with
            | none => .err ProgramError.InvalidInstructionData
            | some duration =>
              if h : 88 < rest.length then
                .ok (.InitializeRentContract payee_pubkey payer_pubkey
                      deposit rent_amount duration (rest.get ⟨88, h⟩))
              else .panic
    else if tag = 1 then
      match unpack_u64 rest 0 with
      | none => .err ProgramError.InvalidInstructionData
      | some rent_amount => .ok (.PayRent rent_amount)
    else if tag = 2 then .ok .TerminateEarly
    else .err ProgramError.InvalidInstructionData

/-!
Trace semantics over the persisted record: one step is one processor call
against the agreement account's data slot, with every caller-controlled
input (other accounts, flags, instruction arguments) chosen by the caller.
Only the data slot is threaded, since it is the only state the processor
persists across calls.
-/

/-- One processor invocation with all caller-chosen inputs. -/
inductive Op where
  | init_op (owner : Pubkey) (lamports : Nat) (rent_exempt : Bool)
      (program_id payee_pubkey payer_pubkey : Pubkey)
      (deposit rent_amount duration duration_unit : Nat)
  | pay_op (owner : Pubkey) (payee_account payer_account : AccountInfo)
      (program_id : Pubkey) (rent_amount : Nat) (transfer_ok : Bool)
  | term_op (owner program_id : Pubkey)

/-- The agreement account's data slot after one processor call. -/
def step (data : Option RentShareAccount) : Op → Option RentShareAccount
  | .init_op owner lamports rent_exempt program_id payee payer dep amt dur du =>
      (initialize_rent_contract ⟨[], owner, lamports, false, data⟩
        rent_exempt program_id payee payer dep amt dur du).rent_agreement_data
  | .pay_op owner payee_account payer_account program_id amt tok =>
      (pay_rent ⟨[], owner, 0, false, data⟩ payee_account payer_account
        program_id amt tok).rent_agreement_data
  | .term_op owner program_id =>
      (terminate_early ⟨[], owner, 0, false, data⟩ program_id).rent_agreement_data

/-- Whether the slot currently holds an Active record. -/
def isActiveSlot : Option RentShareAccount → Bool
  | some r => r.status == AgreementStatus.Active.toU8
  | none => false

/-- `ReachA d a`: the data slot `d` is reachable from an Uninitialized slot
by some sequence of processor calls, and `a` records whether the slot was
Active at some point along the way (including now). -/
inductive ReachA : Option RentShareAccount → Bool → Prop where
  | start (r : RentShareAccount) (h : r.status = AgreementStatus.Uninitialized.toU8) :
      ReachA (some r) false
  | next {d : Option RentShareAccount} {a : Bool} (op : Op) (hd : ReachA d a) :
      ReachA (step d op) (a || isActiveSlot (step d op))

/-- The caller-visible state threaded through a sequence of PayRent calls:
the agreement data slot and the two parties' balances. -/
structure PayState where
  agreement_data : Option RentShareAccount
  payer_lamports : Nat
  payee_lamports : Nat
deriving DecidableEq, Repr

/-- Project a PayRent outcome onto the threaded state. -/
def toPayState (r : PayRentResult) : PayState :=
  ⟨r.rent_agreement_data, r.payer_lamports, r.payee_lamports⟩

/-- One PayRent call in a payment sequence: agreement account owned by the
program, payer signing, external transfer succeeding. -/
def pay_step (program_id payee_key payer_key : Pubkey) (amount : Nat)
    (s : PayState) : PayRentResult :=
  pay_rent ⟨[], program_id, 0, false, s.agreement_data⟩
    ⟨payee_key, [], s.payee_lamports, false, none⟩
    ⟨payer_key, [], s.payer_lamports, true, none⟩
    program_id amount true

/-- `n` sequential PayRent calls (each one as in `pay_step`). -/
def pay_iter (program_id payee_key payer_key : Pubkey) (amount : Nat) :
    Nat → PayState → PayState
  | 0, s => s
  | n + 1, s =>
      toPayState (pay_step program_id payee_key payer_key amount
        (pay_iter program_id payee_key payer_key amount n s))

/-!
Helper lemmas shared by the claim theorems.
-/

/-- Either Initialize succeeds, or it leaves the persisted record and the
account's lamports exactly as they were. -/
lemma init_cases (a : AccountInfo) (ex : Bool) (pid payee payer : Pubkey)
    (dep amt dur du : Nat) :
    (initialize_rent_contract a ex pid payee payer dep amt dur du).err = none ∨
    ((initialize_rent_contract a ex pid payee payer dep amt dur du).rent_agreement_data
        = a.data ∧
     (initialize_rent_contract a ex pid payee payer dep amt dur du).rent_agreement_lamports
        = a.lamports) := by
  unfold initialize_rent_contract
  by_cases h1 : a.owner ≠ pid
  · rw [if_pos h1]; right; exact ⟨rfl, rfl⟩
  · rw [if_neg h1]
    by_cases h2 : ex = false
    · rw [if_pos h2]; right; exact ⟨rfl, rfl⟩
    · rw [if_neg h2]
      cases hd : a.data with
      | none => right; exact ⟨rfl, rfl⟩
      | some rd =>
        dsimp only
        by_cases h3 : rd.is_initialized
        · rw [if_pos h3]; right; exact ⟨rfl, rfl⟩
        · rw [if_neg h3]; left; rfl

/-- Either PayRent succeeds, or it leaves the persisted record and both
balances exactly as they were (in particular a failed external transfer, the
last fallible step before the record write). -/
lemma pay_cases (a pe pr : AccountInfo) (pid : Pubkey) (amt : Nat)
    (tok : Bool) :
    (pay_rent a pe pr pid amt tok).err = none ∨
    ((pay_rent a pe pr pid amt tok).rent_agreement_data = a.data ∧
     (pay_rent a pe pr pid amt tok).payer_lamports = pr.lamports ∧
     (pay_rent a pe pr pid amt tok).payee_lamports = pe.lamports) := by
  unfold pay_rent
  by_cases h1 : a.owner ≠ pid
  · rw [if_pos h1]; right; exact ⟨rfl, rfl, rfl⟩
  · rw [if_neg h1]
    by_cases h2 : pr.is_signer = false
    · rw [if_pos h2]; right; exact ⟨rfl, rfl, rfl⟩
    · rw [if_neg h2]
      by_cases h3 : pr.lamports < amt
      · rw [if_pos h3]; right; exact ⟨rfl, rfl, rfl⟩
      · rw [if_neg h3]
        by_cases h4 : pr.key = pe.key
        · rw [if_pos h4]; left; rfl
        · rw [if_neg h4]
          cases hd : a.data with
          | none => right; exact ⟨rfl, rfl, rfl⟩
          | some rd =>
            dsimp only
            by_cases h5 : rd.is_initialized = false
            · rw [if_pos h5]; right; exact ⟨rfl, rfl, rfl⟩
            · rw [if_neg h5]
              by_cases h6 : rd.payee_pubkey ≠ pe.key
              · rw [if_pos h6]; right; exact ⟨rfl, rfl, rfl⟩
              · rw [if_neg h6]
                by_cases h7 : rd.is_complete
                · rw [if_pos h7]; right; exact ⟨rfl, rfl, rfl⟩
                · rw [if_neg h7]
                  by_cases h8 : rd.is_terminated
                  · rw [if_pos h8]; right; exact ⟨rfl, rfl, rfl⟩
                  · rw [if_neg h8]
                    by_cases h9 : rd.rent_amount ≠ amt
                    · rw [if_pos h9]; right; exact ⟨rfl, rfl, rfl⟩
                    · rw [if_neg h9]
                      by_cases h10 : tok = false
                      · rw [if_pos h10]; right; exact ⟨rfl, rfl, rfl⟩
                      · rw [if_neg h10]; left; rfl

/-- Either TerminateEarly succeeds, or it leaves the persisted record exactly
as it was. -/
lemma term_cases (a : AccountInfo) (pid : Pubkey) :
    (terminate_early a pid).err = none ∨
    (terminate_early a pid).rent_agreement_data = a.data := by
  unfold terminate_early
  by_cases h1 : a.owner ≠ pid
  · rw [if_pos h1]; right; rfl
  · rw [if_neg h1]
    cases hd : a.data with
    | none => right; rfl
    | some rd =>
      dsimp only
      by_cases h2 : rd.is_initialized = false
      · rw [if_pos h2]; right; rfl
      · rw [if_neg h2]
        by_cases h3 : rd.is_complete
        · rw [if_pos h3]; right; rfl
        · rw [if_neg h3]
          by_cases h4 : rd.is_terminated
          · rw [if_pos h4]; right; rfl
          · rw [if_neg h4]; left; rfl

/-- Successful PayRent: every check passing and the transfer succeeding, the
persisted record gets the wrapped decrement of `remaining_payments`, the
status flips to Completed exactly when that reaches 0, and `rent_amount`
lamports move from payer to payee. -/
lemma pay_rent_success_eq (a pe pr : AccountInfo) (pid : Pubkey)
    (r : RentShareAccount) (amt : Nat)
    (hown : a.owner = pid) (hsig : pr.is_signer = true)
    (hbal : ¬ pr.lamports < amt) (hkey : pr.key ≠ pe.key)
    (hdata : a.data = some r)
    (h0 : r.status ≠ 0) (h2 : r.status ≠ 2) (h3 : r.status ≠ 3)
    (hpayee : r.payee_pubkey = pe.key) (hamt : r.rent_amount = amt) :
    pay_rent a pe pr pid amt true =
      ⟨none,
       some { r with
              remaining_payments := (r.remaining_payments + (u64_mod - 1)) % u64_mod,
              status := if (r.remaining_payments + (u64_mod - 1)) % u64_mod = 0
                        then AgreementStatus.Completed.toU8 else r.status },
       pr.lamports - amt, pe.lamports + amt⟩ := by
  unfold pay_rent
  simp only [hown, hsig, hbal, hkey, hdata, hpayee, hamt,
    RentShareAccount.is_initialized, RentShareAccount.is_complete,
    RentShareAccount.is_terminated, AgreementStatus.toU8,
    ne_eq, not_true_eq_false, not_false_eq_true, if_true, if_false,
    ite_true, ite_false, bne_iff_ne, beq_iff_eq]
  simp [h0, h2, h3]

/-- Successful Initialize: on a program-owned, rent-exempt slot holding a
decodable record with Uninitialized status, the persisted record is Active
with all fields taken from the instruction inputs and
`remaining_payments = duration`; the account's lamports are untouched. -/
lemma init_success_eq (a : AccountInfo) (pid payee payer : Pubkey)
    (dep amt dur du : Nat) (r : RentShareAccount)
    (hown : a.owner = pid) (hdata : a.data = some r) (h0 : r.status = 0) :
    initialize_rent_contract a true pid payee payer dep amt dur du =
      ⟨none, some ⟨AgreementStatus.Active.toU8, payee, payer, dep, amt, dur, du, dur⟩,
       a.lamports⟩ := by
  unfold initialize_rent_contract
  simp only [hown, hdata, RentShareAccount.is_initialized, AgreementStatus.toU8, h0,
    ne_eq, not_true_eq_false, not_false_eq_true, if_true, if_false,
    ite_true, ite_false, bne_self_eq_false, Bool.false_eq_true]
  simp

/-- PayRent on a Completed record (all prior checks passing): fails with the
domain error `RentAlreadyPaidInFull` (code 100), leaving record and balances
unchanged. -/
lemma pay_completed_eq (a pe pr : AccountInfo) (pid : Pubkey)
    (r : RentShareAccount) (amt : Nat) (tok : Bool)
    (hown : a.owner = pid) (hsig : pr.is_signer = true)
    (hbal : ¬ pr.lamports < amt) (hkey : pr.key ≠ pe.key)
    (hdata : a.data = some r) (hst : r.status = 2)
    (hpayee : r.payee_pubkey = pe.key) :
    pay_rent a pe pr pid amt tok =
      ⟨some (ProgramError.Custom 100), some r, pr.lamports, pe.lamports⟩ := by
  unfold pay_rent
  simp only [hown, hsig, hbal, hkey, hdata, hpayee, hst,
    RentShareAccount.is_initialized, RentShareAccount.is_complete,
    AgreementStatus.toU8, RentShareError.into, RentShareError.toCode,
    ne_eq, not_true_eq_false, not_false_eq_true, if_true, if_false,
    ite_true, ite_false, bne_iff_ne, beq_iff_eq]
  simp

/-- PayRent on a Terminated record (all prior checks passing): fails with the
domain error `RentAgreementTerminated` (code 102), leaving record and
balances unchanged. -/
lemma pay_terminated_eq (a pe pr : AccountInfo) (pid : Pubkey)
    (r : RentShareAccount) (amt : Nat) (tok : Bool)
    (hown : a.owner = pid) (hsig : pr.is_signer = true)
    (hbal : ¬ pr.lamports < amt) (hkey : pr.key ≠ pe.key)
    (hdata : a.data = some r) (hst : r.status = 3)
    (hpayee : r.payee_pubkey = pe.key) :
    pay_rent a pe pr pid amt tok =
      ⟨some (ProgramError.Custom 102), some r, pr.lamports, pe.lamports⟩ := by
  unfold pay_rent
  simp only [hown, hsig, hbal, hkey, hdata, hpayee, hst,
    RentShareAccount.is_initialized, RentShareAccount.is_complete,
    RentShareAccount.is_terminated,
    AgreementStatus.toU8, RentShareError.into, RentShareError.toCode,
    ne_eq, not_true_eq_false, not_false_eq_true, if_true, if_false,
    ite_true, ite_false, bne_iff_ne, beq_iff_eq]
  simp

/-- PayRent with an asserted amount different from the stored `rent_amount`
(all prior checks passing, record neither Completed nor Terminated): fails
with the domain error `RentPaymentAmountMismatch` (code 101), leaving record
and balances unchanged. -/
lemma pay_mismatch_eq (a pe pr : AccountInfo) (pid : Pubkey)
    (r : RentShareAccount) (amt : Nat) (tok : Bool)
    (hown : a.owner = pid) (hsig : pr.is_signer = true)
    (hbal : ¬ pr.lamports < amt) (hkey : pr.key ≠ pe.key)
    (hdata : a.data = some r)
    (h0 : r.status ≠ 0) (h2 : r.status ≠ 2) (h3 : r.status ≠ 3)
    (hpayee : r.payee_pubkey = pe.key) (hamt : r.rent_amount ≠ amt) :
    pay_rent a pe pr pid amt tok =
      ⟨some (ProgramError.Custom 101), some r, pr.lamports, pe.lamports⟩ := by
  unfold pay_rent
  simp only [hown, hsig, hbal, hkey, hdata, hpayee,
    RentShareAccount.is_initialized, RentShareAccount.is_complete,
    RentShareAccount.is_terminated,
    AgreementStatus.toU8, RentShareError.into, RentShareError.toCode,
    ne_eq, not_true_eq_false, not_false_eq_true, if_true, if_false,
    ite_true, ite_false, bne_iff_ne, beq_iff_eq]
  simp [h0, h2, h3, hamt]

/-- PayRent where the payer key equals the payee key (owner, signer and
balance checks passing): succeeds as a no-op, before the record is even
read. -/
lemma pay_self_eq (a pe pr : AccountInfo) (pid : Pubkey) (amt : Nat)
    (tok : Bool)
    (hown : a.owner = pid) (hsig : pr.is_signer = true)
    (hbal : ¬ pr.lamports < amt) (hkey : pr.key = pe.key) :
    pay_rent a pe pr pid amt tok =
      ⟨none, a.data, pr.lamports, pe.lamports⟩ := by
  unfold pay_rent
  simp only [hown, hsig, hbal, hkey,
    ne_eq, not_true_eq_false, not_false_eq_true, if_true, if_false,
    ite_true, ite_false]
  simp

/-- Successful TerminateEarly: on a program-owned slot holding a decodable
record that is initialized and neither Completed nor Terminated, the
persisted record becomes Terminated with `remaining_payments = 0`; no signer
input even exists for this operation. -/
lemma term_success_eq (a : AccountInfo) (pid : Pubkey) (r : RentShareAccount)
    (hown : a.owner = pid) (hdata : a.data = some r)
    (h0 : r.status ≠ 0) (h2 : r.status ≠ 2) (h3 : r.status ≠ 3) :
    terminate_early a pid =
      ⟨none, some { r with
        status := AgreementStatus.Terminated.toU8,
        remaining_payments := 0 }⟩ := by
  unfold terminate_early
  simp only [hown, hdata,
    RentShareAccount.is_initialized, RentShareAccount.is_complete,
    RentShareAccount.is_terminated, AgreementStatus.toU8,
    ne_eq, not_true_eq_false, not_false_eq_true, if_true, if_false,
    ite_true, ite_false, bne_iff_ne, beq_iff_eq]
  simp [h0, h2, h3]

/-- The wrapping u64 decrement computes the exact decrement whenever the
value is a nonzero u64. -/
lemma wrap_dec_eq (k : Nat) (h1 : 1 ≤ k) (h2 : k < u64_mod) :
    (k + (u64_mod - 1)) % u64_mod = k - 1 := by
  have hm : u64_mod = 18446744073709551616 := by norm_num [u64_mod]
  rw [hm] at h2 ⊢
  omega

/-- The wrapping u64 decrement of 0 is `2 ^ 64 - 1`. -/
lemma wrap_dec_zero : ((0 : Nat) + (u64_mod - 1)) % u64_mod = u64_mod - 1 := by
  have hm : u64_mod = 18446744073709551616 := by norm_num [u64_mod]
  rw [hm]

/-- Initialize changes the persisted record only from status Uninitialized,
and then writes the fully determined Active record. -/
lemma init_data_shape (a : AccountInfo) (ex : Bool) (pid payee payer : Pubkey)
    (dep amt dur du : Nat) :
    (initialize_rent_contract a ex pid payee payer dep amt dur du).rent_agreement_data
        = a.data ∨
    (∃ r, a.data = some r ∧ r.status = 0 ∧
      (initialize_rent_contract a ex pid payee payer dep amt dur du).rent_agreement_data
        = some ⟨AgreementStatus.Active.toU8, payee, payer, dep, amt, dur, du, dur⟩) := by
  unfold initialize_rent_contract
  by_cases h1 : a.owner ≠ pid
  · rw [if_pos h1]; left; rfl
  · rw [if_neg h1]
    by_cases h2 : ex = false
    · rw [if_pos h2]; left; rfl
    · rw [if_neg h2]
      cases hd : a.data with
      | none => left; rfl
      | some rd =>
        dsimp only
        by_cases h3 : rd.is_initialized
        · rw [if_pos h3]; left; rfl
        · rw [if_neg h3]
          right
          refine ⟨rd, rfl, ?_, rfl⟩
          simpa [RentShareAccount.is_initialized, AgreementStatus.toU8] using h3

/-- PayRent changes the persisted record only from a decodable record whose
status is neither 0 (Uninitialized) nor 2 (Completed) nor 3 (Terminated),
and then writes the wrapped decrement, flipping status to Completed exactly
when the new `remaining_payments` is 0. -/
lemma pay_data_shape (a pe pr : AccountInfo) (pid : Pubkey) (amt : Nat)
    (tok : Bool) :
    (pay_rent a pe pr pid amt tok).rent_agreement_data = a.data ∨
    (∃ r, a.data = some r ∧ r.status ≠ 0 ∧ r.status ≠ 2 ∧ r.status ≠ 3 ∧
      (pay_rent a pe pr pid amt tok).rent_agreement_data =
        some { r with
               remaining_payments := (r.remaining_payments + (u64_mod - 1)) % u64_mod,
               status := if (r.remaining_payments + (u64_mod - 1)) % u64_mod = 0
                         then AgreementStatus.Completed.toU8 else r.status }) := by
  unfold pay_rent
  by_cases h1 : a.owner ≠ pid
  · rw [if_pos h1]; left; rfl
  · rw [if_neg h1]
    by_cases h2 : pr.is_signer = false
    · rw [if_pos h2]; left; rfl
    · rw [if_neg h2]
      by_cases h3 : pr.lamports < amt
      · rw [if_pos h3]; left; rfl
      · rw [if_neg h3]
        by_cases h4 : pr.key = pe.key
        · rw [if_pos h4]; left; rfl
        · rw [if_neg h4]
          cases hd : a.data with
          | none => left; rfl
          | some rd =>
            dsimp only
            by_cases h5 : rd.is_initialized = false
            · rw [if_pos h5]; left; rfl
            · rw [if_neg h5]
              by_cases h6 : rd.payee_pubkey ≠ pe.key
              · rw [if_pos h6]; left; rfl
              · rw [if_neg h6]
                by_cases h7 : rd.is_complete
                · rw [if_pos h7]; left; rfl
                · rw [if_neg h7]
                  by_cases h8 : rd.is_terminated
                  · rw [if_pos h8]; left; rfl
                  · rw [if_neg h8]
                    by_cases h9 : rd.rent_amount ≠ amt
                    · rw [if_pos h9]; left; rfl
                    · rw [if_neg h9]
                      by_cases h10 : tok = false
                      · rw [if_pos h10]; left; rfl
                      · rw [if_neg h10]
                        right
                        refine ⟨rd, rfl, ?_, ?_, ?_, rfl⟩
                        · simpa [RentShareAccount.is_initialized,
                            AgreementStatus.toU8] using h5
                        · simpa [RentShareAccount.is_complete,
                            AgreementStatus.toU8] using h7
                        · simpa [RentShareAccount.is_terminated,
                            AgreementStatus.toU8] using h8

/-- TerminateEarly changes the persisted record only from a decodable record
whose status is neither 0 nor 2 nor 3, and then writes status Terminated
with zero remaining payments. -/
lemma term_data_shape (a : AccountInfo) (pid : Pubkey) :
    (terminate_early a pid).rent_agreement_data = a.data ∨
    (∃ r, a.data = some r ∧ r.status ≠ 0 ∧ r.status ≠ 2 ∧ r.status ≠ 3 ∧
      (terminate_early a pid).rent_agreement_data =
        some { r with
          status := AgreementStatus.Terminated.toU8,
          remaining_payments := 0 }) := by
  unfold terminate_early
  by_cases h1 : a.owner ≠ pid
  · rw [if_pos h1]; left; rfl
  · rw [if_neg h1]
    cases hd : a.data with
    | none => left; rfl
    | some rd =>
      dsimp only
      by_cases h2 : rd.is_initialized = false
      · rw [if_pos h2]; left; rfl
      · rw [if_neg h2]
        by_cases h3 : rd.is_complete
        · rw [if_pos h3]; left; rfl
        · rw [if_neg h3]
          by_cases h4 : rd.is_terminated
          · rw [if_pos h4]; left; rfl
          · rw [if_neg h4]
            right
            refine ⟨rd, rfl, ?_, ?_, ?_, rfl⟩
            · simpa [RentShareAccount.is_initialized, AgreementStatus.toU8] using h2
            · simpa [RentShareAccount.is_complete, AgreementStatus.toU8] using h3
            · simpa [RentShareAccount.is_terminated, AgreementStatus.toU8] using h4

set_option maxRecDepth 8192

/-- Invariant of every reachable slot: the status byte is one of the four
declared discriminants; any non-Uninitialized record implies the slot was
Active at some point; and a Completed record has zero remaining payments. -/
lemma reachA_inv (d : Option RentShareAccount) (a : Bool) (h : ReachA d a) :
    ∀ r, d = some r →
      (r.status = 0 ∨ r.status = 1 ∨ r.status = 2 ∨ r.status = 3) ∧
      (r.status ≠ 0 → a = true) ∧
      (r.status = 2 → r.remaining_payments = 0) := by
  induction h with
  | start r h0 =>
      intro r' hr'
      obtain rfl : r = r' := by injection hr'
      simp only [AgreementStatus.toU8] at h0
      exact ⟨Or.inl h0, fun hne => absurd h0 hne, fun h2 => by omega⟩
  | next op hd ih =>
      intro r' hr'
      rename_i d a
      cases op with
      | init_op owner lamports ex pid payee payer dep amt dur du =>
          rcases init_data_shape ⟨[], owner, lamports, false, d⟩ ex pid payee
              payer dep amt dur du with hsame | ⟨r, hdr, h0, hres⟩
          · -- record unchanged: the invariant carries over, the flag is monotone
            rw [step, hsame] at hr' ⊢
            obtain ⟨hset, hflag, hrem⟩ := ih r' hr'
            exact ⟨hset, fun hne => by simp [hflag hne], hrem⟩
          · rw [step, hres] at hr'
            obtain rfl : (⟨AgreementStatus.Active.toU8, payee, payer, dep, amt,
                dur, du, dur⟩ : RentShareAccount) = r' := by injection hr'
            refine ⟨Or.inr (Or.inl rfl), fun _ => ?_, fun h2 => by
              simp [AgreementStatus.toU8] at h2⟩
            rw [step, hres]
            simp [isActiveSlot, AgreementStatus.toU8]
      | pay_op owner pe pr pid amt tok =>
          rcases pay_data_shape ⟨[], owner, 0, false, d⟩ pe pr pid amt tok with
            hsame | ⟨r, hdr, h0, h2, h3, hres⟩
          · rw [step, hsame] at hr' ⊢
            obtain ⟨hset, hflag, hrem⟩ := ih r' hr'
            exact ⟨hset, fun hne => by simp [hflag hne], hrem⟩
          · rw [step, hres] at hr'
            have hst1 : r.status = 1 := by
              rcases (ih r hdr).1 with h | h | h | h <;> omega
            have hflag : a = true := (ih r hdr).2.1 (by omega)
            generalize hX : (r.remaining_payments + (u64_mod - 1)) % u64_mod = X at hr'
            obtain rfl : ({ r with
                remaining_payments := X,
                status := if X = 0
                          then AgreementStatus.Completed.toU8 else r.status }
                : RentShareAccount) = r' := by injection hr'
            by_cases hz : X = 0
            · refine ⟨Or.inr (Or.inr (Or.inl ?_)), fun _ => by simp [hflag],
                fun _ => ?_⟩
              · show (if X = 0
                     then AgreementStatus.Completed.toU8 else r.status) = 2
                rw [if_pos hz]; rfl
              · exact hz
            · refine ⟨Or.inr (Or.inl ?_), fun _ => by simp [hflag],
                fun hc => ?_⟩
              · show (if X = 0
                     then AgreementStatus.Completed.toU8 else r.status) = 1
                rw [if_neg hz, hst1]
              · exfalso
                have hc2 : (if X = 0
                    then AgreementStatus.Completed.toU8 else r.status) = 2 := hc
                rw [if_neg hz] at hc2
                omega
      | term_op owner pid =>
          rcases term_data_shape ⟨[], owner, 0, false, d⟩ pid with
            hsame | ⟨r, hdr, h0, h2, h3, hres⟩
          · rw [step, hsame] at hr' ⊢
            obtain ⟨hset, hflag, hrem⟩ := ih r' hr'
            exact ⟨hset, fun hne => by simp [hflag hne], hrem⟩
          · rw [step, hres] at hr'
            obtain rfl : ({ r with
                status := AgreementStatus.Terminated.toU8,
                remaining_payments := 0 } : RentShareAccount) = r' := by
              injection hr'
            have hflag : a = true := (ih r hdr).2.1 (by omega)
            refine ⟨?_, fun _ => by simp [hflag], fun hc => ?_⟩
            · simp [AgreementStatus.toU8]
            · simp [AgreementStatus.toU8] at hc

/-- One successful sequence step: PayRent against an Active record holding
the matching payee key and rent amount, with a nonzero u64 remaining count,
decrements the count exactly, flips status to Completed when it reaches 0,
and moves `amount` lamports from payer to payee. -/
lemma pay_step_state_eq (pid payee_key payer_key : Pubkey)
    (dep amount D du rem bal pbal : Nat)
    (hk : payer_key ≠ payee_key) (hbal : ¬ bal < amount)
    (hrem1 : 1 ≤ rem) (hrem2 : rem < u64_mod) :
    pay_step pid payee_key payer_key amount
        ⟨some ⟨AgreementStatus.Active.toU8, payee_key, payer_key, dep, amount,
               D, du, rem⟩, bal, pbal⟩ =
      ⟨none,
       some ⟨if rem - 1 = 0 then AgreementStatus.Completed.toU8
             else AgreementStatus.Active.toU8,
             payee_key, payer_key, dep, amount, D, du, rem - 1⟩,
       bal - amount, pbal + amount⟩ := by
  have h := pay_rent_success_eq
    ⟨[], pid, 0, false,
      some ⟨AgreementStatus.Active.toU8, payee_key, payer_key, dep, amount,
            D, du, rem⟩⟩
    ⟨payee_key, [], pbal, false, none⟩
    ⟨payer_key, [], bal, true, none⟩
    pid
    ⟨AgreementStatus.Active.toU8, payee_key, payer_key, dep, amount, D, du, rem⟩
    amount rfl rfl hbal hk rfl
    (by simp [AgreementStatus.toU8]) (by simp [AgreementStatus.toU8])
    (by simp [AgreementStatus.toU8]) rfl rfl
  unfold pay_step
  rw [h]
  dsimp only
  rw [wrap_dec_eq rem hrem1 hrem2]

/-- Exact characterization of `N ≤ duration` sequential PayRent calls
starting from a freshly initialized Active record with duration `D`,
rent amount `amount`, payer balance `B ≥ D * amount`: after the `N`-th call
the record holds `remaining_payments = D - N` and status Active for
`N < D`, Completed for `N = D`, and exactly `N * amount` lamports have moved
from payer to payee. -/
lemma pay_iter_eq (pid payee_key payer_key : Pubkey) (dep amount D du B P : Nat)
    (hk : payer_key ≠ payee_key) (hD1 : 1 ≤ D) (hD : D < u64_mod)
    (hB : D * amount ≤ B) :
    ∀ N, N ≤ D →
      pay_iter pid payee_key payer_key amount N
          ⟨some ⟨AgreementStatus.Active.toU8, payee_key, payer_key, dep,
                 amount, D, du, D⟩, B, P⟩ =
        ⟨some ⟨if N = D then AgreementStatus.Completed.toU8
               else AgreementStatus.Active.toU8,
               payee_key, payer_key, dep, amount, D, du, D - N⟩,
         B - N * amount, P + N * amount⟩ := by
  intro N
  induction N with
  | zero =>
      intro _
      simp only [pay_iter]
      rw [if_neg (by omega : ¬ (0 = D))]
      simp
  | succ n ihn =>
      intro h
      have hn : n ≤ D := by omega
      have hnD : ¬ (n = D) := by omega
      have hmul : (n + 1) * amount ≤ D * amount :=
        Nat.mul_le_mul_right amount h
      have hmul1 : (n + 1) * amount = n * amount + amount := by ring
      have hbal : ¬ (B - n * amount < amount) := by omega
      simp only [pay_iter]
      rw [ihn hn, if_neg hnD,
        pay_step_state_eq pid payee_key payer_key dep amount D du (D - n)
          (B - n * amount) (P + n * amount) hk hbal (by omega) (by omega)]
      simp only [toPayState]
      have e1 : D - n - 1 = D - (n + 1) := by omega
      have e2 : B - n * amount - amount = B - (n + 1) * amount := by omega
      have e3 : P + n * amount + amount = P + (n + 1) * amount := by omega
      rw [e1, e2, e3]
      by_cases hc : n + 1 = D
      · rw [if_pos (by omega : D - (n + 1) = 0), if_pos hc]
      · rw [if_neg (by omega : ¬ (D - (n + 1) = 0)), if_neg hc]

/-!
Claim theorems.
-/

/-- C1: for every operation (Initialize, PayRent, TerminateEarly) and every
account/input state, if the operation returns an error then the persisted
agreement record is unchanged (and, for PayRent, both lamport balances as
well — in particular the external transfer, the last fallible step before
the record write, leaves the record unmutated when it fails). -/
theorem C1_error_leaves_record_unchanged :
    (∀ (a : AccountInfo) (ex : Bool) (pid payee payer : Pubkey)
        (dep amt dur du : Nat),
      (initialize_rent_contract a ex pid payee payer dep amt dur du).err ≠ none →
      (initialize_rent_contract a ex pid payee payer dep amt dur du).rent_agreement_data
        = a.data) ∧
    (∀ (a pe pr : AccountInfo) (pid : Pubkey) (amt : Nat) (tok : Bool),
      (pay_rent a pe pr pid amt tok).err ≠ none →
      (pay_rent a pe pr pid amt tok).rent_agreement_data = a.data ∧
      (pay_rent a pe pr pid amt tok).payer_lamports = pr.lamports ∧
      (pay_rent a pe pr pid amt tok).payee_lamports = pe.lamports) ∧
    (∀ (a : AccountInfo) (pid : Pubkey),
      (terminate_early a pid).err ≠ none →
      (terminate_early a pid).rent_agreement_data = a.data) := by
  refine ⟨fun a ex pid payee payer dep amt dur du h => ?_,
    fun a pe pr pid amt tok h => ?_, fun a pid h => ?_⟩
  · rcases init_cases a ex pid payee payer dep amt dur du with he | hu
    · exact absurd he h
    · exact hu.1
  · rcases pay_cases a pe pr pid amt tok with he | hu
    · exact absurd he h
    · exact hu
  · rcases term_cases a pid with he | hu
    · exact absurd he h
    · exact hu

/-- Witness for C1: a PayRent whose external transfer fails (every check
passing) errors and leaves the record as it was. -/
theorem C1_witness :
    (pay_rent ⟨[9], [7], 0, false, some ⟨1, [1], [2], 0, 5, 3, 0, 3⟩⟩
        ⟨[1], [], 0, false, none⟩ ⟨[2], [], 10, true, none⟩ [7] 5 false).rent_agreement_data
      = some ⟨1, [1], [2], 0, 5, 3, 0, 3⟩ :=
  (C1_error_leaves_record_unchanged.2.1
    ⟨[9], [7], 0, false, some ⟨1, [1], [2], 0, 5, 3, 0, 3⟩⟩
    ⟨[1], [], 0, false, none⟩ ⟨[2], [], 10, true, none⟩ [7] 5 false
    (by decide)).1

/-- C3: a PayRent that reaches the status checks (program-owned slot, payer
signed, sufficient balance, distinct payer/payee, decodable record, payee
matching) fails with domain code 100 (RentAlreadyPaidInFull) on a Completed
record and with domain code 102 (RentAgreementTerminated) on a Terminated
record, in both cases leaving the record and both balances unchanged. -/
theorem C3_completed_terminated_errors (a pe pr : AccountInfo) (pid : Pubkey)
    (r : RentShareAccount) (amt : Nat) (tok : Bool)
    (hown : a.owner = pid) (hsig : pr.is_signer = true)
    (hbal : ¬ pr.lamports < amt) (hkey : pr.key ≠ pe.key)
    (hdata : a.data = some r) (hpayee : r.payee_pubkey = pe.key) :
    (r.status = AgreementStatus.Completed.toU8 →
      pay_rent a pe pr pid amt tok =
        ⟨some (ProgramError.Custom 100), some r, pr.lamports, pe.lamports⟩) ∧
    (r.status = AgreementStatus.Terminated.toU8 →
      pay_rent a pe pr pid amt tok =
        ⟨some (ProgramError.Custom 102), some r, pr.lamports, pe.lamports⟩) :=
  ⟨fun h2 => pay_completed_eq a pe pr pid r amt tok hown hsig hbal hkey hdata h2 hpayee,
   fun h3 => pay_terminated_eq a pe pr pid r amt tok hown hsig hbal hkey hdata h3 hpayee⟩

/-- Witness for C3: PayRent against a concrete Completed agreement fails
with code 100 and changes nothing. -/
theorem C3_witness :
    pay_rent ⟨[9], [7], 0, false, some ⟨2, [1], [2], 0, 5, 3, 0, 0⟩⟩
        ⟨[1], [], 4, false, none⟩ ⟨[2], [], 10, true, none⟩ [7] 5 true =
      ⟨some (ProgramError.Custom 100), some ⟨2, [1], [2], 0, 5, 3, 0, 0⟩, 10, 4⟩ :=
  (C3_completed_terminated_errors
    ⟨[9], [7], 0, false, some ⟨2, [1], [2], 0, 5, 3, 0, 0⟩⟩
    ⟨[1], [], 4, false, none⟩ ⟨[2], [], 10, true, none⟩ [7]
    ⟨2, [1], [2], 0, 5, 3, 0, 0⟩ 5 true
    rfl rfl (by decide) (by decide) rfl rfl).1 rfl

/-- C4: a PayRent on an initialized Active agreement (program-owned slot,
payer signed, sufficient balance, distinct payer/payee, payee matching)
whose asserted amount differs from the stored rent_amount fails with domain
code 101 (RentPaymentAmountMismatch), leaving the record and both balances
unchanged — no transfer is attempted. -/
theorem C4_amount_mismatch (a pe pr : AccountInfo) (pid : Pubkey)
    (r : RentShareAccount) (amt : Nat) (tok : Bool)
    (hown : a.owner = pid) (hsig : pr.is_signer = true)
    (hbal : ¬ pr.lamports < amt) (hkey : pr.key ≠ pe.key)
    (hdata : a.data = some r) (hst : r.status = AgreementStatus.Active.toU8)
    (hpayee : r.payee_pubkey = pe.key) (hamt : r.rent_amount ≠ amt) :
    pay_rent a pe pr pid amt tok =
      ⟨some (ProgramError.Custom 101), some r, pr.lamports, pe.lamports⟩ := by
  have h1 : r.status = 1 := hst
  exact pay_mismatch_eq a pe pr pid r amt tok hown hsig hbal hkey hdata
    (by omega) (by omega) (by omega) hpayee hamt

/-- Witness for C4: asserting 7 against a stored rent_amount of 5 fails with
code 101 and changes nothing. -/
theorem C4_witness :
    pay_rent ⟨[9], [7], 0, false, some ⟨1, [1], [2], 0, 5, 3, 0, 3⟩⟩
        ⟨[1], [], 4, false, none⟩ ⟨[2], [], 10, true, none⟩ [7] 7 true =
      ⟨some (ProgramError.Custom 101), some ⟨1, [1], [2], 0, 5, 3, 0, 3⟩, 10, 4⟩ :=
  C4_amount_mismatch
    ⟨[9], [7], 0, false, some ⟨1, [1], [2], 0, 5, 3, 0, 3⟩⟩
    ⟨[1], [], 4, false, none⟩ ⟨[2], [], 10, true, none⟩ [7]
    ⟨1, [1], [2], 0, 5, 3, 0, 3⟩ 7 true
    rfl rfl (by decide) (by decide) rfl rfl rfl (by decide)

/-- C5: Initialize on a program-owned, rent-exempt slot whose decoded record
has status Uninitialized succeeds, and the persisted record is Active with
`remaining_payments = duration` and every recorded field equal to the
decoded instruction inputs; the slot's lamports are untouched (this
operation moves no value). -/
theorem C5_init_success (a : AccountInfo) (pid payee payer : Pubkey)
    (dep amt dur du : Nat) (r : RentShareAccount)
    (hown : a.owner = pid) (hdata : a.data = some r)
    (h0 : r.status = AgreementStatus.Uninitialized.toU8) :
    initialize_rent_contract a true pid payee payer dep amt dur du =
      ⟨none, some ⟨AgreementStatus.Active.toU8, payee, payer, dep, amt, dur, du, dur⟩,
       a.lamports⟩ :=
  init_success_eq a pid payee payer dep amt dur du r hown hdata h0

/-- Witness for C5: a concrete Initialize writes the expected Active
record. -/
theorem C5_witness :
    initialize_rent_contract ⟨[9], [7], 42, false, some ⟨0, [], [], 0, 0, 0, 0, 0⟩⟩
        true [7] [1] [2] 50 5 3 0 =
      ⟨none, some ⟨1, [1], [2], 50, 5, 3, 0, 3⟩, 42⟩ :=
  C5_init_success ⟨[9], [7], 42, false, some ⟨0, [], [], 0, 0, 0, 0, 0⟩⟩
    [7] [1] [2] 50 5 3 0 ⟨0, [], [], 0, 0, 0, 0, 0⟩ rfl rfl rfl

/-- C7: a PayRent whose payer key equals the payee key (program-owned slot,
payer signed, sufficient balance) succeeds with no value transfer and no
record mutation, whatever the slot holds — even a Completed, Terminated or
undecodable record, since this short-circuit precedes the record read. -/
theorem C7_self_payment (a pe pr : AccountInfo) (pid : Pubkey) (amt : Nat)
    (tok : Bool) (hown : a.owner = pid) (hsig : pr.is_signer = true)
    (hbal : ¬ pr.lamports < amt) (hkey : pr.key = pe.key) :
    pay_rent a pe pr pid amt tok = ⟨none, a.data, pr.lamports, pe.lamports⟩ :=
  pay_self_eq a pe pr pid amt tok hown hsig hbal hkey

/-- Witness for C7: self-payment against an undecodable slot succeeds and
changes nothing. -/
theorem C7_witness :
    pay_rent ⟨[9], [7], 0, false, none⟩ ⟨[1], [], 4, false, none⟩
        ⟨[1], [], 10, true, none⟩ [7] 5 true = ⟨none, none, 10, 4⟩ :=
  C7_self_payment ⟨[9], [7], 0, false, none⟩ ⟨[1], [], 4, false, none⟩
    ⟨[1], [], 10, true, none⟩ [7] 5 true rfl rfl (by decide) rfl

/-- C2: starting from an agreement initialized with duration `D ≥ 1` (a u64)
and PayRent invoked `N ≤ D` times in sequence with the asserted amount equal
to the stored rent_amount, distinct payer and payee, payer signature
present, sufficient payer balance for all D payments, and each transfer
succeeding: after the N-th call `remaining_payments = D - N` and the status
is Active for `N < D` and Completed (with 0 remaining) for `N = D`; each of
the D calls succeeds. -/
theorem C2_payment_sequence (pid payee_key payer_key : Pubkey)
    (dep amount D du B P : Nat)
    (hk : payer_key ≠ payee_key) (hD1 : 1 ≤ D) (hD : D < u64_mod)
    (hB : D * amount ≤ B) (N : Nat) (hN : N ≤ D) :
    pay_iter pid payee_key payer_key amount N
        ⟨some ⟨AgreementStatus.Active.toU8, payee_key, payer_key, dep,
               amount, D, du, D⟩, B, P⟩ =
      ⟨some ⟨if N = D then AgreementStatus.Completed.toU8
             else AgreementStatus.Active.toU8,
             payee_key, payer_key, dep, amount, D, du, D - N⟩,
       B - N * amount, P + N * amount⟩ ∧
    (N < D →
      (pay_step pid payee_key payer_key amount
        (pay_iter pid payee_key payer_key amount N
          ⟨some ⟨AgreementStatus.Active.toU8, payee_key, payer_key, dep,
                 amount, D, du, D⟩, B, P⟩)).err = none) := by
  refine ⟨pay_iter_eq pid payee_key payer_key dep amount D du B P
    hk hD1 hD hB N hN, fun hlt => ?_⟩
  rw [pay_iter_eq pid payee_key payer_key dep amount D du B P hk hD1 hD hB N hN,
    if_neg (by omega : ¬ (N = D))]
  have hmul : (N + 1) * amount ≤ D * amount :=
    Nat.mul_le_mul_right amount (by omega)
  have hmul1 : (N + 1) * amount = N * amount + amount := by ring
  rw [pay_step_state_eq pid payee_key payer_key dep amount D du (D - N)
    (B - N * amount) (P + N * amount) hk (by omega) (by omega) (by omega)]

/-- Witness for C2: the spec's concrete scenario — rent 100, duration 3,
three successful payments ending Completed with 0 remaining and 300
lamports moved. -/
theorem C2_witness :
    pay_iter [7] [1] [2] 100 3 ⟨some ⟨1, [1], [2], 0, 100, 3, 0, 3⟩, 300, 0⟩ =
      ⟨some ⟨2, [1], [2], 0, 100, 3, 0, 0⟩, 0, 300⟩ :=
  (C2_payment_sequence [7] [1] [2] 0 100 3 0 300 0
    (by decide) (by decide) (by decide) (by decide) 3 (by decide)).1

/-- C6 (counterexample): the claimed equivalence
"Completed ⇔ remaining_payments = 0 ∧ previously Active" fails on the code,
and so does "no reachable record is Active with remaining_payments = 0".
A Terminated agreement (Initialize with duration 1, then TerminateEarly) is
reachable, was previously Active, has 0 remaining payments, yet its status
is not Completed; and Initialize with duration 0 reaches an Active record
whose remaining_payments is 0. -/
theorem C6_counterexample :
    ReachA (some ⟨3, [1], [2], 0, 5, 1, 0, 0⟩) true ∧
    (3 : Nat) ≠ AgreementStatus.Completed.toU8 ∧
    ReachA (some ⟨1, [1], [2], 0, 5, 0, 0, 0⟩) true := by
  have h0 : ReachA (some ⟨0, [], [], 0, 0, 0, 0, 0⟩) false :=
    ReachA.start ⟨0, [], [], 0, 0, 0, 0, 0⟩ rfl
  refine ⟨?_, by decide, ?_⟩
  · have h1 := ReachA.next (Op.init_op [7] 0 true [7] [1] [2] 0 5 1 0) h0
    have h2 := ReachA.next (Op.term_op [7] [7]) h1
    exact h2
  · have h1 := ReachA.next (Op.init_op [7] 0 true [7] [1] [2] 0 5 0 0) h0
    exact h1

/-- C6 (amended): in every record state reachable from an Uninitialized slot
via Initialize/PayRent/TerminateEarly, status Completed implies
`remaining_payments = 0` and the slot was previously Active.  The converse
implication is false (a Terminated record also has 0 remaining payments and
was previously Active), and an Active record with 0 remaining payments is
reachable via Initialize with duration 0. -/
theorem C6_completed_inv (d : Option RentShareAccount) (a : Bool)
    (h : ReachA d a) (r : RentShareAccount) (hd : d = some r)
    (hc : r.status = AgreementStatus.Completed.toU8) :
    r.remaining_payments = 0 ∧ a = true := by
  obtain ⟨hset, hflag, hrem⟩ := reachA_inv d a h r hd
  have hc2 : r.status = 2 := hc
  exact ⟨hrem hc2, hflag (by omega)⟩

/-- Witness for C6: a concrete reachable Completed record (Initialize with
duration 1, then one successful PayRent) has 0 remaining payments and passed
through Active. -/
theorem C6_witness :
    (⟨2, [1], [2], 0, 5, 1, 0, 0⟩ : RentShareAccount).remaining_payments = 0 ∧
    true = true := by
  have h0 : ReachA (some ⟨0, [], [], 0, 0, 0, 0, 0⟩) false :=
    ReachA.start ⟨0, [], [], 0, 0, 0, 0, 0⟩ rfl
  have h1 := ReachA.next (Op.init_op [7] 0 true [7] [1] [2] 0 5 1 0) h0
  have h2 := ReachA.next
    (Op.pay_op [7] ⟨[1], [], 0, false, none⟩ ⟨[2], [], 10, true, none⟩ [7] 5 true) h1
  exact C6_completed_inv _ _ h2 ⟨2, [1], [2], 0, 5, 1, 0, 0⟩ rfl rfl

/-- C8: TerminateEarly on a program-owned slot holding a decodable Active
record succeeds — consulting no signer flag at all (the embedded
`terminate_early` reads only owner and data, so flipping any `is_signer`
bit changes nothing) — and persists status Terminated with
`remaining_payments = 0`; any subsequent PayRent against the terminated
record (signed, funded, distinct payer/payee, matching payee) fails with
domain code 102 (RentAgreementTerminated) and changes nothing. -/
theorem C8_terminate_then_pay_fails (a : AccountInfo) (pid : Pubkey)
    (r : RentShareAccount)
    (hown : a.owner = pid) (hdata : a.data = some r)
    (hst : r.status = AgreementStatus.Active.toU8) :
    terminate_early a pid =
      ⟨none, some { r with
        status := AgreementStatus.Terminated.toU8,
        remaining_payments := 0 }⟩ ∧
    (∀ b : Bool, terminate_early { a with is_signer := b } pid =
      terminate_early a pid) ∧
    (∀ (a2 pe pr : AccountInfo) (amt : Nat) (tok : Bool),
      a2.owner = pid → pr.is_signer = true → ¬ pr.lamports < amt →
      pr.key ≠ pe.key →
      a2.data = (terminate_early a pid).rent_agreement_data →
      r.payee_pubkey = pe.key →
      pay_rent a2 pe pr pid amt tok =
        ⟨some (ProgramError.Custom 102),
         some { r with
           status := AgreementStatus.Terminated.toU8,
           remaining_payments := 0 },
         pr.lamports, pe.lamports⟩) := by
  have h1 : r.status = 1 := hst
  have hterm := term_success_eq a pid r hown hdata (by omega) (by omega) (by omega)
  refine ⟨hterm, fun b => rfl, fun a2 pe pr amt tok hown2 hsig2 hbal2 hkey2 hd2 hpayee => ?_⟩
  rw [hterm] at hd2
  exact pay_terminated_eq a2 pe pr pid _ amt tok hown2 hsig2 hbal2 hkey2 hd2
    rfl hpayee

/-- Witness for C8: a concrete TerminateEarly on an Active agreement, and
the follow-up PayRent failing with code 102. -/
theorem C8_witness :
    terminate_early ⟨[9], [7], 0, false, some ⟨1, [1], [2], 0, 5, 3, 0, 3⟩⟩ [7] =
      ⟨none, some ⟨3, [1], [2], 0, 5, 3, 0, 0⟩⟩ ∧
    pay_rent ⟨[9], [7], 0, false, some ⟨3, [1], [2], 0, 5, 3, 0, 0⟩⟩
        ⟨[1], [], 4, false, none⟩ ⟨[2], [], 10, true, none⟩ [7] 5 true =
      ⟨some (ProgramError.Custom 102), some ⟨3, [1], [2], 0, 5, 3, 0, 0⟩, 10, 4⟩ := by
  have h := C8_terminate_then_pay_fails
    ⟨[9], [7], 0, false, some ⟨1, [1], [2], 0, 5, 3, 0, 3⟩⟩ [7]
    ⟨1, [1], [2], 0, 5, 3, 0, 3⟩ rfl rfl rfl
  exact ⟨h.1, h.2.2 ⟨[9], [7], 0, false, some ⟨3, [1], [2], 0, 5, 3, 0, 0⟩⟩
    ⟨[1], [], 4, false, none⟩ ⟨[2], [], 10, true, none⟩ 5 true
    rfl rfl (by decide) (by decide) rfl rfl⟩

/-- C9: the claim says a tag-0 instruction with payload shorter than 89
bytes always decodes to the InvalidInstructionData error and that decoding
is total.  The code instead PANICS (out-of-bounds slice indexing) for
payloads shorter than 64 bytes (`&rest[..32]` / `&rest[32..64]`) and for
payloads of exactly 88 bytes (`rest[88]`); only lengths 64..87 produce
InvalidInstructionData, and a 89-byte payload decodes successfully. -/
theorem C9_truncated_tag0_panics :
    unpack [0] = UnpackResult.panic ∧
    unpack (0 :: List.replicate 63 0) = UnpackResult.panic ∧
    unpack (0 :: List.replicate 88 0) = UnpackResult.panic ∧
    unpack (0 :: List.replicate 70 0)
      = UnpackResult.err ProgramError.InvalidInstructionData ∧
    unpack (0 :: List.replicate 89 0)
      = UnpackResult.ok (RentShareInstruction.InitializeRentContract
          (List.replicate 32 0) (List.replicate 32 0) 0 0 0 0) := by
  refine ⟨rfl, rfl, ?_, ?_, ?_⟩ <;> decide

/-- C10: a record with status Active and `remaining_payments = 0` — which
Initialize with duration 0 produces, second conjunct — lets a PayRent that
passes every check and whose transfer succeeds run the unguarded u64
decrement on 0: the call SUCCEEDS and the persisted `remaining_payments`
wraps to `2 ^ 64 - 1` instead of the operation failing with a clean domain
error. -/
theorem C10_underflow_wraps (a pe pr : AccountInfo) (pid : Pubkey)
    (r : RentShareAccount) (amt : Nat)
    (hown : a.owner = pid) (hsig : pr.is_signer = true)
    (hbal : ¬ pr.lamports < amt) (hkey : pr.key ≠ pe.key)
    (hdata : a.data = some r) (hst : r.status = AgreementStatus.Active.toU8)
    (hrem : r.remaining_payments = 0)
    (hpayee : r.payee_pubkey = pe.key) (hamt : r.rent_amount = amt) :
    pay_rent a pe pr pid amt true =
      ⟨none, some { r with remaining_payments := u64_mod - 1 },
       pr.lamports - amt, pe.lamports + amt⟩ ∧
    (∀ (a2 : AccountInfo) (r2 : RentShareAccount) (payee payer : Pubkey)
        (dep amt2 du : Nat),
      a2.owner = pid → a2.data = some r2 → r2.status = 0 →
      (initialize_rent_contract a2 true pid payee payer dep amt2 0 du).rent_agreement_data
        = some ⟨AgreementStatus.Active.toU8, payee, payer, dep, amt2, 0, du, 0⟩) := by
  have h1 : r.status = 1 := hst
  constructor
  · rw [pay_rent_success_eq a pe pr pid r amt hown hsig hbal hkey hdata
      (by omega) (by omega) (by omega) hpayee hamt]
    rw [hrem]
    have hz : (0 + (u64_mod - 1)) % u64_mod = u64_mod - 1 := wrap_dec_zero
    rw [hz, if_neg (by norm_num [u64_mod] : ¬ (u64_mod - 1 = 0)), h1]
  · intro a2 r2 payee payer dep amt2 du hown2 hdata2 h02
    rw [init_success_eq a2 pid payee payer dep amt2 0 du r2 hown2 hdata2 h02]

/-- Witness for C10: a concrete PayRent against an Active record with 0
remaining payments succeeds and persists 18446744073709551615 remaining
payments. -/
theorem C10_witness :
    pay_rent ⟨[9], [7], 0, false, some ⟨1, [1], [2], 0, 5, 0, 0, 0⟩⟩
        ⟨[1], [], 4, false, none⟩ ⟨[2], [], 10, true, none⟩ [7] 5 true =
      ⟨none, some ⟨1, [1], [2], 0, 5, 0, 0, 18446744073709551615⟩, 5, 9⟩ :=
  (C10_underflow_wraps ⟨[9], [7], 0, false, some ⟨1, [1], [2], 0, 5, 0, 0, 0⟩⟩
    ⟨[1], [], 4, false, none⟩ ⟨[2], [], 10, true, none⟩ [7]
    ⟨1, [1], [2], 0, 5, 0, 0, 0⟩ 5
    rfl rfl (by decide) (by decide) rfl rfl rfl rfl rfl).1

end RentShare
